import Mathlib

/-!
Verification of the Four-Pillars (Saju) calculation engine of this repository
(`saju_calculator.py`), as a shallow embedding in Lean 4.

Conventions of the embedding:
* Heavenly stems (천간 갑..계) are `Fin 10` indices into the source's
  `heavenly_stems` list; earthly branches (지지 자..해) are `Fin 12` indices into
  `earthly_branches`.
* The five elements 목/화/토/금/수 are the inductive `Element`
  (wood/fire/earth/metal/water).
* Python `datetime` values are modelled as integer seconds counted from the
  start of proleptic-Gregorian day 1 (0001-01-01 00:00), mirroring
  `datetime.toordinal`; `datetime` comparison is integer comparison,
  `timedelta.days` of a difference is flooring division by 86400, exactly as in
  CPython.  Construction validates the field ranges and yields `none` where
  CPython raises `ValueError`.
* Python floats in the source (score weights, solar-time corrections) are
  modelled as exact rationals; `round(x, 1)` is modelled by `round1` below.
* Functions that can raise `ValueError` in Python return
  `Except SajuError _`; `SajuError.invalidDate` stands for `ValueError`.
-/

/-- A heavenly-stem index (source list `heavenly_stems`: 갑 을 병 정 무 기 경 신 임 계). -/
abbrev Stem := Fin 10

/-- An earthly-branch index (source list `earthly_branches`: 자 축 인 묘 진 사 오 미 신 유 술 해). -/
abbrev Branch := Fin 12

/-- The five elements 목(wood) 화(fire) 토(earth) 금(metal) 수(water). -/
inductive Element
  | wood
  | fire
  | earth
  | metal
  | water
deriving DecidableEq, Inhabited

/-- The only exception the source calculator can raise: Python `ValueError`
from `datetime` construction on an out-of-range date/time. -/
inductive SajuError
  | invalidDate
deriving DecidableEq, Inhabited

/-- Gregorian leap-year test, as used by Python `datetime`. -/
def isLeapYearG (y : ℤ) : Bool :=
  decide ((y.emod 4 = 0 ∧ y.emod 100 ≠ 0) ∨ y.emod 400 = 0)

/-- Number of days of month `m` of year `y` (Python `calendar`/`datetime` rules). -/
def daysInMonth (y m : ℤ) : ℤ :=
  if m = 2 then (if isLeapYearG y then 29 else 28)
  else if m = 4 ∨ m = 6 ∨ m = 9 ∨ m = 11 then 30
  else 31

/-- Days in the months of year `y` strictly before month `m` (for valid `m`). -/
def daysBeforeMonth (y m : ℤ) : ℤ :=
  (if m = 1 then 0 else if m = 2 then 31 else if m = 3 then 59 else if m = 4 then 90
   else if m = 5 then 120 else if m = 6 then 151 else if m = 7 then 181
   else if m = 8 then 212 else if m = 9 then 243 else if m = 10 then 273
   else if m = 11 then 304 else 334)
  + (if 3 ≤ m ∧ isLeapYearG y = true then 1 else 0)

/-- Days strictly before year `y` in the proleptic Gregorian calendar (`y ≥ 1`). -/
def daysBeforeYear (y : ℤ) : ℤ :=
  365 * (y - 1) + (y - 1).fdiv 4 - (y - 1).fdiv 100 + (y - 1).fdiv 400

/-- Python `date(y, m, d).toordinal()`: 0001-01-01 is ordinal 1. -/
def gregorianOrdinal (y m d : ℤ) : ℤ :=
  daysBeforeYear y + daysBeforeMonth y m + d

/-- Python `datetime(y, m, d, h, mi)`: validates the field ranges exactly as
CPython does and returns the instant as seconds from the start of ordinal day 1;
`none` models a raised `ValueError`. -/
def mkDatetime? (y m d h mi : ℤ) : Option ℤ :=
  if 1 ≤ y ∧ y ≤ 9999 ∧ 1 ≤ m ∧ m ≤ 12 ∧ 1 ≤ d ∧ d ≤ daysInMonth y m ∧
     0 ≤ h ∧ h ≤ 23 ∧ 0 ≤ mi ∧ mi ≤ 59 then
    some ((gregorianOrdinal y m d - 1) * 86400 + h * 3600 + mi * 60)
  else
    none

/-- Ordinal of the calendar date of a datetime (`dt.date().toordinal()`). -/
def dateOrdinal (t : ℤ) : ℤ :=
  t.fdiv 86400 + 1

/-- Hour-of-day field of a datetime (`dt.hour`). -/
def dtHour (t : ℤ) : ℤ :=
  (t.emod 86400).fdiv 3600

/-- Minute field of a datetime (`dt.minute`). -/
def dtMinute (t : ℤ) : ℤ :=
  ((t.emod 86400).emod 3600).fdiv 60

/-- Stem element map, the stem half of the source dict `five_elements`:
갑 을 → 목, 병 정 → 화, 무 기 → 토, 경 신 → 금, 임 계 → 수. -/
def fiveElements (s : Stem) : Element :=
  if s.val ≤ 1 then .wood
  else if s.val ≤ 3 then .fire
  else if s.val ≤ 5 then .earth
  else if s.val ≤ 7 then .metal
  else .water

/-- Hidden-stem decomposition table `hidden_stems`: for each branch, the hidden
stems with their percentage weights (e.g. 축 ↦ 기 60, 신 30, 계 10). -/
def hiddenStems (b : Branch) : List (Stem × ℕ) :=
  if b.val = 0 then [((9 : Stem), 100)]
  else if b.val = 1 then [((5 : Stem), 60), ((7 : Stem), 30), ((9 : Stem), 10)]
  else if b.val = 2 then [((0 : Stem), 60), ((2 : Stem), 30), ((4 : Stem), 10)]
  else if b.val = 3 then [((1 : Stem), 100)]
  else if b.val = 4 then [((4 : Stem), 60), ((1 : Stem), 30), ((9 : Stem), 10)]
  else if b.val = 5 then [((2 : Stem), 70), ((4 : Stem), 20), ((6 : Stem), 10)]
  else if b.val = 6 then [((3 : Stem), 70), ((5 : Stem), 30)]
  else if b.val = 7 then [((5 : Stem), 60), ((3 : Stem), 30), ((1 : Stem), 10)]
  else if b.val = 8 then [((6 : Stem), 60), ((8 : Stem), 30), ((4 : Stem), 10)]
  else if b.val = 9 then [((7 : Stem), 100)]
  else if b.val = 10 then [((4 : Stem), 60), ((7 : Stem), 30), ((3 : Stem), 10)]
  else [((8 : Stem), 70), ((0 : Stem), 30)]

/-- Seasonal weighting table `seasonal_weights`, keyed by the month branch;
every branch row of the source dict assigns a weight to each of the five
elements (the final catch-all row is 축, branch index 1). -/
def seasonalWeights (b : Branch) (e : Element) : ℚ :=
  match b.val, e with
  | 2, .wood => 2.0
  | 2, .fire => 1.3
  | 2, .earth => 0.7
  | 2, .metal => 0.5
  | 2, .water => 0.6
  | 3, .wood => 2.2
  | 3, .fire => 1.3
  | 3, .earth => 0.7
  | 3, .metal => 0.4
  | 3, .water => 0.6
  | 4, .wood => 1.5
  | 4, .fire => 1.1
  | 4, .earth => 1.3
  | 4, .metal => 0.6
  | 4, .water => 0.7
  | 5, .fire => 2.0
  | 5, .earth => 1.3
  | 5, .metal => 0.7
  | 5, .water => 0.5
  | 5, .wood => 0.6
  | 6, .fire => 2.2
  | 6, .earth => 1.3
  | 6, .metal => 0.7
  | 6, .water => 0.4
  | 6, .wood => 0.6
  | 7, .fire => 1.5
  | 7, .earth => 1.8
  | 7, .metal => 0.8
  | 7, .water => 0.6
  | 7, .wood => 0.7
  | 8, .metal => 2.0
  | 8, .water => 1.3
  | 8, .earth => 0.7
  | 8, .fire => 0.5
  | 8, .wood => 0.6
  | 9, .metal => 2.2
  | 9, .water => 1.3
  | 9, .earth => 0.7
  | 9, .fire => 0.4
  | 9, .wood => 0.6
  | 10, .metal => 1.5
  | 10, .water => 1.1
  | 10, .earth => 1.3
  | 10, .fire => 0.6
  | 10, .wood => 0.7
  | 11, .water => 2.0
  | 11, .wood => 1.3
  | 11, .fire => 0.7
  | 11, .earth => 0.5
  | 11, .metal => 0.6
  | 0, .water => 2.2
  | 0, .wood => 1.3
  | 0, .fire => 0.7
  | 0, .earth => 0.4
  | 0, .metal => 0.6
  | _, .water => 1.5
  | _, .wood => 1.1
  | _, .fire => 0.7
  | _, .earth => 1.3
  | _, .metal => 0.8

/-- The 24 solar terms, in the calendar order used by the source list
`terms_order` (소한 대한 입춘 우수 경칩 춘분 청명 곡우 입하 소만 망종 하지 소서
대서 입추 처서 백로 추분 한로 상강 입동 소설 대설 동지). -/
inductive Term
  | sohan
  | daehan
  | ipchun
  | usu
  | gyeongchip
  | chunbun
  | cheongmyeong
  | gogu
  | ipha
  | soman
  | mangjong
  | haji
  | soseo
  | daeseo
  | ipchu
  | cheoseo
  | baekro
  | chubun
  | hanro
  | sanggang
  | ipdong
  | soseol
  | daeseol
  | dongji
deriving DecidableEq, Inhabited

/-- The source list `terms_order` (all 24 terms in calendar order). -/
def termsOrder : List Term :=
  [.sohan, .daehan, .ipchun, .usu, .gyeongchip, .chunbun, .cheongmyeong, .gogu,
   .ipha, .soman, .mangjong, .haji, .soseo, .daeseo, .ipchu, .cheoseo,
   .baekro, .chubun, .hanro, .sanggang, .ipdong, .soseol, .daeseol, .dongji]

/-- Exact 1995 solar-term table `solar_terms_1995` (month, day, hour, minute);
the table starts at 입춘, so 소한 and 대한 are absent. -/
def solarTerms1995 (t : Term) : Option (ℤ × ℤ × ℤ × ℤ) :=
  match t with
  | .sohan => none
  | .daehan => none
  | .ipchun => some (2, 4, 9, 14)
  | .usu => some (2, 19, 5, 1)
  | .gyeongchip => some (3, 6, 0, 46)
  | .chunbun => some (3, 21, 2, 14)
  | .cheongmyeong => some (4, 5, 15, 36)
  | .gogu => some (4, 20, 22, 1)
  | .ipha => some (5, 6, 2, 20)
  | .soman => some (5, 21, 4, 35)
  | .mangjong => some (6, 6, 5, 46)
  | .haji => some (6, 21, 15, 34)
  | .soseo => some (7, 7, 12, 3)
  | .daeseo => some (7, 23, 6, 29)
  | .ipchu => some (8, 8, 0, 1)
  | .cheoseo => some (8, 23, 16, 35)
  | .baekro => some (9, 8, 6, 0)
  | .chubun => some (9, 23, 16, 13)
  | .hanro => some (10, 8, 23, 37)
  | .sanggang => some (10, 24, 3, 4)
  | .ipdong => some (11, 8, 3, 4)
  | .soseol => some (11, 22, 23, 57)
  | .daeseol => some (12, 7, 17, 53)
  | .dongji => some (12, 22, 8, 17)

/-- Exact 2024 solar-term table `solar_terms_2024` (month, day, hour, minute). -/
def solarTerms2024 (t : Term) : Option (ℤ × ℤ × ℤ × ℤ) :=
  match t with
  | .sohan => none
  | .daehan => none
  | .ipchun => some (2, 4, 16, 27)
  | .usu => some (2, 19, 12, 13)
  | .gyeongchip => some (3, 5, 22, 23)
  | .chunbun => some (3, 20, 15, 6)
  | .cheongmyeong => some (4, 4, 21, 2)
  | .gogu => some (4, 20, 3, 20)
  | .ipha => some (5, 5, 8, 10)
  | .soman => some (5, 20, 20, 59)
  | .mangjong => some (6, 5, 12, 10)
  | .haji => some (6, 21, 4, 51)
  | .soseo => some (7, 6, 22, 20)
  | .daeseo => some (7, 22, 15, 44)
  | .ipchu => some (8, 7, 9, 9)
  | .cheoseo => some (8, 22, 23, 55)
  | .baekro => some (9, 7, 12, 11)
  | .chubun => some (9, 22, 20, 44)
  | .hanro => some (10, 8, 3, 0)
  | .sanggang => some (10, 23, 6, 15)
  | .ipdong => some (11, 7, 6, 20)
  | .soseol => some (11, 22, 3, 56)
  | .daeseol => some (12, 7, 0, 17)
  | .dongji => some (12, 21, 17, 21)

/-- Base rows of `_calculate_solar_terms_dates` (month, day, hour, minute). -/
def baseTerms (t : Term) : ℤ × ℤ × ℤ × ℤ :=
  match t with
  | .sohan => (1, 6, 0, 0)
  | .daehan => (1, 20, 12, 0)
  | .ipchun => (2, 4, 18, 0)
  | .usu => (2, 19, 12, 0)
  | .gyeongchip => (3, 5, 22, 0)
  | .chunbun => (3, 20, 15, 0)
  | .cheongmyeong => (4, 5, 3, 0)
  | .gogu => (4, 20, 9, 0)
  | .ipha => (5, 5, 20, 0)
  | .soman => (5, 21, 9, 0)
  | .mangjong => (6, 6, 0, 0)
  | .haji => (6, 21, 17, 0)
  | .soseo => (7, 7, 10, 0)
  | .daeseo => (7, 23, 4, 0)
  | .ipchu => (8, 7, 20, 0)
  | .cheoseo => (8, 23, 11, 0)
  | .baekro => (9, 8, 0, 0)
  | .chubun => (9, 23, 9, 0)
  | .hanro => (10, 8, 15, 0)
  | .sanggang => (10, 23, 18, 0)
  | .ipdong => (11, 7, 18, 0)
  | .soseol => (11, 22, 16, 0)
  | .daeseol => (12, 7, 11, 0)
  | .dongji => (12, 21, 17, 30)

/-- `_calculate_solar_terms_dates(year)[t]`: the formula-approximated solar-term
instant.  `int(year_diff * 0.25)` truncates toward zero (`Int.tdiv`), the
hour-overflow branches use Python `//` (`Int.fdiv`) and `%` (`Int.emod`), and a
`ValueError` from the corrected date falls back to the base row, exactly as the
source's `try/except`.  The result is `none` only when `year` itself is outside
`datetime`'s range, in which case the source raises. -/
def calcSolarTermsDates (year : ℤ) (t : Term) : Option ℤ :=
  let info := baseTerms t
  let m := info.1
  let d := info.2.1
  let h := info.2.2.1
  let mi := info.2.2.2
  let hourCorrection := Int.tdiv (year - 2000) 4
  let ch := h + hourCorrection
  let cd := if ch ≥ 24 then d + ch.fdiv 24 else if ch < 0 then d + ch.fdiv 24 else d
  let ch2 := if ch ≥ 24 then ch.emod 24 else if ch < 0 then 24 + ch.emod 24 else ch
  match mkDatetime? year m cd ch2 mi with
  | some dt => some dt
  | none => mkDatetime? year m d h mi

/-- The solar-term instant table selected by `_get_month_branch_by_solar_terms`:
the exact table for 1995 and 2024, the formula approximation otherwise.  `none`
models an absent dict key (소한/대한 in the exact tables). -/
def solarTermDate (year : ℤ) (t : Term) : Option ℤ :=
  if year = 1995 then
    match solarTerms1995 t with
    | some info => mkDatetime? year info.1 info.2.1 info.2.2.1 info.2.2.2
    | none => none
  else if year = 2024 then
    match solarTerms2024 t with
    | some info => mkDatetime? year info.1 info.2.1 info.2.2.1 info.2.2.2
    | none => none
  else
    calcSolarTermsDates year t

/-- `solar_terms_dates.get(t, datetime(year, dm, dd))`: table lookup with the
source's default date.  The sentinel 0 is unreachable for the years at which the
source evaluates the default. -/
def termDateOr (year : ℤ) (t : Term) (dm dd : ℤ) : ℤ :=
  match solarTermDate year t with
  | some v => v
  | none =>
    match mkDatetime? year dm dd 0 0 with
    | some v => v
    | none => 0

/-- Stem index from an integer, via Python nonnegative `% 10` (`Int.emod`). -/
def stemIdx (z : ℤ) : Stem :=
  ⟨(z.emod 10).toNat, by
    have h1 : 0 ≤ z.emod 10 := Int.emod_nonneg z (by norm_num)
    have h2 : z.emod 10 < 10 := Int.emod_lt_of_pos z (by norm_num)
    omega⟩

/-- Branch index from an integer, via Python nonnegative `% 12` (`Int.emod`). -/
def branchIdx (z : ℤ) : Branch :=
  ⟨(z.emod 12).toNat, by
    have h1 : 0 ≤ z.emod 12 := Int.emod_nonneg z (by norm_num)
    have h2 : z.emod 12 < 12 := Int.emod_lt_of_pos z (by norm_num)
    omega⟩

/-- A pillar (stem, branch), the source dataclass `SajuPillar`. -/
structure SajuPillar where
  heavenly_stem : Stem
  earthly_branch : Branch
deriving DecidableEq, Inhabited

/-- The `birth_info` dict assembled by `calculate_saju`; `birth_datetime` is the
solar-time-corrected instant. -/
structure BirthInfo where
  year : ℤ
  month : ℤ
  day : ℤ
  hour : ℤ
  minute : ℤ
  is_male : Bool
  timezone : String
  is_leap_month : Bool
  birth_datetime : ℤ
deriving DecidableEq, Inhabited

/-- The source dataclass `SajuChart`. -/
structure SajuChart where
  year_pillar : SajuPillar
  month_pillar : SajuPillar
  day_pillar : SajuPillar
  hour_pillar : SajuPillar
  birth_info : BirthInfo
deriving DecidableEq, Inhabited

/-- `chart.get_day_master()`. -/
def SajuChart.getDayMaster (c : SajuChart) : Stem :=
  c.day_pillar.heavenly_stem

/-- The non-leap body of `_get_month_branch_by_solar_terms`: month-branch
resolution against the selected solar-term table.  The source compares
`current_date = datetime(year, month, day)` (midnight of the birth date)
against the term instants; month 9 is handled first, then months 1..8, 10, 11,
and the trailing `else` covers month 12 (where the unused `next_year_xiaohan`
datetime is still constructed, so a year-9999 December input raises). -/
def monthBranchCore (year month day : ℤ) : Except SajuError (Fin 12) :=
  match mkDatetime? year month day 0 0 with
  | none => .error .invalidDate
  | some current =>
    if month = 9 then
      match solarTermDate year .baekro, solarTermDate year .hanro with
      | some bailu, some hanlu =>
        if bailu ≤ current ∧ current < hanlu then .ok ⟨9, by decide⟩
        else if current < bailu then .ok ⟨8, by decide⟩
        else .ok ⟨10, by decide⟩
      | _, _ => if day ≥ 8 then .ok ⟨9, by decide⟩ else .ok ⟨8, by decide⟩
    else if month = 1 then
      let lichun := termDateOr year .ipchun 2 4
      if current < lichun then .ok ⟨0, by decide⟩ else .ok ⟨2, by decide⟩
    else if month = 2 then
      let lichun := termDateOr year .ipchun 2 4
      let jingzhe := termDateOr year .gyeongchip 3 6
      if current < lichun then .ok ⟨0, by decide⟩
      else if current < jingzhe then .ok ⟨2, by decide⟩
      else .ok ⟨3, by decide⟩
    else if month = 3 then
      let jingzhe := termDateOr year .gyeongchip 3 6
      let qingming := termDateOr year .cheongmyeong 4 5
      if current < jingzhe then .ok ⟨2, by decide⟩
      else if current < qingming then .ok ⟨3, by decide⟩
      else .ok ⟨4, by decide⟩
    else if month = 4 then
      let qingming := termDateOr year .cheongmyeong 4 5
      let lixia := termDateOr year .ipha 5 6
      if current < qingming then .ok ⟨3, by decide⟩
      else if current < lixia then .ok ⟨4, by decide⟩
      else .ok ⟨5, by decide⟩
    else if month = 5 then
      let lixia := termDateOr year .ipha 5 6
      let mangzhong := termDateOr year .mangjong 6 6
      if current < lixia then .ok ⟨4, by decide⟩
      else if current < mangzhong then .ok ⟨5, by decide⟩
      else .ok ⟨6, by decide⟩
    else if month = 6 then
      let mangzhong := termDateOr year .mangjong 6 6
      let xiaoshu := termDateOr year .soseo 7 7
      if current < mangzhong then .ok ⟨5, by decide⟩
      else if current < xiaoshu then .ok ⟨6, by decide⟩
      else .ok ⟨7, by decide⟩
    else if month = 7 then
      let xiaoshu := termDateOr year .soseo 7 7
      let liqiu := termDateOr year .ipchu 8 8
      if current < xiaoshu then .ok ⟨6, by decide⟩
      else if current < liqiu then .ok ⟨7, by decide⟩
      else .ok ⟨8, by decide⟩
    else if month = 8 then
      let liqiu := termDateOr year .ipchu 8 8
      let bailu := termDateOr year .baekro 9 8
      if current < liqiu then .ok ⟨7, by decide⟩
      else if current < bailu then .ok ⟨8, by decide⟩
      else .ok ⟨9, by decide⟩
    else if month = 10 then
      let hanlu := termDateOr year .hanro 10 8
      let lidong := termDateOr year .ipdong 11 8
      if current < hanlu then .ok ⟨9, by decide⟩
      else if current < lidong then .ok ⟨10, by decide⟩
      else .ok ⟨11, by decide⟩
    else if month = 11 then
      let lidong := termDateOr year .ipdong 11 8
      let daxue := termDateOr year .daeseol 12 7
      if current < lidong then .ok ⟨10, by decide⟩
      else if current < daxue then .ok ⟨11, by decide⟩
      else .ok ⟨0, by decide⟩
    else
      let daxue := termDateOr year .daeseol 12 7
      match mkDatetime? (year + 1) 1 6 0 0 with
      | none => .error .invalidDate
      | some _ =>
        if current < daxue then .ok ⟨11, by decide⟩ else .ok ⟨0, by decide⟩

/-- `_get_month_branch_by_solar_terms`: an intercalary (leap) month resolves as
the previous calendar month at day 15 (month 12 of the previous year when the
month is 1); the recursive call has `is_leap_month=False`, hence `monthBranchCore`. -/
def monthBranch (year month day : ℤ) (isLeap : Bool) : Except SajuError (Fin 12) :=
  if isLeap then
    if month > 1 then monthBranchCore year (month - 1) 15
    else monthBranchCore (year - 1) 12 15
  else monthBranchCore year month day

/-- `_calculate_month_pillar_improved`: month branch by solar terms, month stem
from the year-stem group's starting offset plus the offset from the tiger month
(branch index 2). -/
def calcMonthPillarImproved (year month day : ℤ) (isLeap : Bool) :
    Except SajuError SajuPillar :=
  match monthBranch year month day isLeap with
  | .error e => .error e
  | .ok mb =>
    let ysi := (year - 1984).emod 10
    let base : ℤ :=
      if ysi = 0 ∨ ysi = 5 then 2
      else if ysi = 1 ∨ ysi = 6 then 4
      else if ysi = 2 ∨ ysi = 7 then 6
      else if ysi = 3 ∨ ysi = 8 then 8
      else 0
    let offset := ((mb.val : ℤ) - 2).emod 12
    .ok ⟨stemIdx (base + offset), mb⟩

/-- `_calculate_year_pillar`: 1984 anchors stem 0 / branch 0. -/
def calcYearPillar (year : ℤ) : SajuPillar :=
  ⟨stemIdx (year - 1984), branchIdx (year - 1984)⟩

/-- `_calculate_day_pillar`: 1900-01-01 anchors stem 0 (갑) / branch 10 (술). -/
def calcDayPillar (daysDiff : ℤ) : SajuPillar :=
  ⟨stemIdx (0 + daysDiff), branchIdx (10 + daysDiff)⟩

/-- `_calculate_hour_pillar_improved`: two-hour branch windows starting at
23:00 (자시 23:00-00:59), hour stem from the day-stem group's base plus the
branch window index. -/
def calcHourPillarImproved (dayStem : Stem) (hour minute : ℤ) : SajuPillar :=
  let totalMinutes := hour * 60 + minute
  let bIdx : Fin 12 :=
    if totalMinutes ≥ 23 * 60 ∨ totalMinutes < 1 * 60 then ⟨0, by decide⟩
    else if totalMinutes < 3 * 60 then ⟨1, by decide⟩
    else if totalMinutes < 5 * 60 then ⟨2, by decide⟩
    else if totalMinutes < 7 * 60 then ⟨3, by decide⟩
    else if totalMinutes < 9 * 60 then ⟨4, by decide⟩
    else if totalMinutes < 11 * 60 then ⟨5, by decide⟩
    else if totalMinutes < 13 * 60 then ⟨6, by decide⟩
    else if totalMinutes < 15 * 60 then ⟨7, by decide⟩
    else if totalMinutes < 17 * 60 then ⟨8, by decide⟩
    else if totalMinutes < 19 * 60 then ⟨9, by decide⟩
    else if totalMinutes < 21 * 60 then ⟨10, by decide⟩
    else ⟨11, by decide⟩
  let base : ℤ :=
    if dayStem.val = 0 ∨ dayStem.val = 5 then 0
    else if dayStem.val = 1 ∨ dayStem.val = 6 then 2
    else if dayStem.val = 2 ∨ dayStem.val = 7 then 4
    else if dayStem.val = 3 ∨ dayStem.val = 8 then 6
    else 8
  ⟨stemIdx (base + (bIdx.val : ℤ)), bIdx⟩

/-- Truncation toward zero of a rational, Python `int(x)`. -/
def ratTrunc (q : ℚ) : ℤ :=
  Int.tdiv q.num (q.den : ℤ)

/-- The per-timezone solar-time correction table `solar_corrections`
(minutes); unknown keys default to 0. -/
def solarCorrections (tz : String) : ℚ :=
  if tz = "Asia/Seoul" then 32.0
  else if tz = "Asia/Tokyo" then -18.8
  else if tz = "Asia/Shanghai" then -5.9
  else if tz = "Asia/Hong_Kong" then 22.1
  else if tz = "Asia/Singapore" then 23.5
  else if tz = "Asia/Bangkok" then 0.8
  else if tz = "Asia/Taipei" then 22.0
  else if tz = "America/New_York" then 0.0
  else if tz = "America/Los_Angeles" then 0.0
  else if tz = "Europe/London" then 0.0
  else if tz = "Europe/Paris" then 9.3
  else if tz = "Australia/Sydney" then -37.2
  else if tz = "Asia/Kolkata" then 21.3
  else if tz = "Asia/Dubai" then -13.2
  else if tz = "Europe/Berlin" then 7.9
  else if tz = "America/Chicago" then 0.0
  else if tz = "Asia/Manila" then 1.2
  else 0.0

/-- `_apply_solar_time_correction`: subtract `int(correction_minutes * 60)`
seconds from the birth instant when the correction is nonzero. -/
def applySolarTimeCorrection (bd : ℤ) (tz : String) : ℤ :=
  let cm := solarCorrections tz
  if cm ≠ 0 then bd - ratTrunc (cm * 60) else bd

/-- `calculate_saju`: validates the civil birth datetime, applies the
solar-time correction, and composes the four pillars.  `days_diff` counts
calendar days from 1900-01-01 to the date of the **corrected** instant, the
year and month pillars are computed from the uncorrected `year`/`month`/`day`
arguments, and the hour pillar from the corrected clock time. -/
def calculateSaju (year month day hour minute : ℤ) (isMale : Bool)
    (timezone : String) (isLeapMonth : Bool) : Except SajuError SajuChart :=
  match mkDatetime? year month day hour minute with
  | none => .error .invalidDate
  | some bd0 =>
    let bd := applySolarTimeCorrection bd0 timezone
    let daysDiff := dateOrdinal bd - gregorianOrdinal 1900 1 1
    let yearPillar := calcYearPillar year
    match calcMonthPillarImproved year month day isLeapMonth with
    | .error e => .error e
    | .ok monthPillar =>
      let dayPillar := calcDayPillar daysDiff
      let hourPillar := calcHourPillarImproved dayPillar.heavenly_stem (dtHour bd) (dtMinute bd)
      .ok { year_pillar := yearPillar
            month_pillar := monthPillar
            day_pillar := dayPillar
            hour_pillar := hourPillar
            birth_info :=
              { year := year, month := month, day := day, hour := hour,
                minute := minute, is_male := isMale, timezone := timezone,
                is_leap_month := isLeapMonth, birth_datetime := bd } }

/-- The chart produced by `calculate_saju` at the given arguments (default
chart when the call raises); a convenience handle for concrete instances. -/
def chartOf (year month day hour minute : ℤ) (isMale : Bool)
    (timezone : String) (isLeapMonth : Bool) : SajuChart :=
  ((calculateSaju year month day hour minute isMale timezone isLeapMonth).toOption).getD default

/-- Python `round(x, 1)` on the score values (modelled with round-half-up;
every value this is applied to in the verified statements is an exact multiple
of 1/10 or a third, where the tie-breaking convention is immaterial). -/
def round1 (q : ℚ) : ℚ :=
  (round (q * 10) : ℤ) / 10

/-- Python `round(x, 2)`. -/
def round2 (q : ℚ) : ℚ :=
  (round (q * 100) : ℤ) / 100

/-- Contribution of one pillar to one element in `get_element_strength`:
1.0 for the stem's element, `ratio/100` for each hidden stem of the branch. -/
def pillarRawContrib (p : SajuPillar) (e : Element) : ℚ :=
  (if fiveElements p.heavenly_stem = e then 1 else 0)
  + ((hiddenStems p.earthly_branch).map
      (fun x => if fiveElements x.1 = e then (x.2 : ℚ) / 100 else 0)).sum

/-- The pre-rounding accumulator of `get_element_strength`. -/
def rawElementScore (c : SajuChart) (e : Element) : ℚ :=
  pillarRawContrib c.year_pillar e + pillarRawContrib c.month_pillar e
  + pillarRawContrib c.day_pillar e + pillarRawContrib c.hour_pillar e

/-- `get_element_strength`: hidden-stem-weighted element scores, each rounded
to 1 decimal. -/
def getElementStrength (c : SajuChart) (e : Element) : ℚ :=
  round1 (rawElementScore c e)

/-- Python `max(xs, key=lambda x: x[1])` over a nonempty list presented as
head and tail: keeps the earliest entry on ties. -/
def maxByWeight (x : Stem × ℕ) (xs : List (Stem × ℕ)) : Stem × ℕ :=
  xs.foldl (fun best y => if y.2 > best.2 then y else best) x

/-- The dominant hidden stem of a branch
(`max(hidden_stems, key=lambda x: x[1])` in `get_element_strength_simple`);
the empty-list fallback is unreachable, every `hidden_stems` row is nonempty. -/
def strongestHidden (b : Branch) : Stem × ℕ :=
  match hiddenStems b with
  | [] => (⟨0, by decide⟩, 0)
  | x :: xs => maxByWeight x xs

/-- Contribution of one pillar to one element in `get_element_strength_simple`:
1 for the stem's element and 1 for the dominant hidden stem's element. -/
def pillarSimpleContrib (p : SajuPillar) (e : Element) : ℤ :=
  (if fiveElements p.heavenly_stem = e then 1 else 0)
  + (if fiveElements (strongestHidden p.earthly_branch).1 = e then 1 else 0)

/-- `get_element_strength_simple`: traditional integer 8-point scoring. -/
def getElementStrengthSimple (c : SajuChart) (e : Element) : ℤ :=
  pillarSimpleContrib c.year_pillar e + pillarSimpleContrib c.month_pillar e
  + pillarSimpleContrib c.day_pillar e + pillarSimpleContrib c.hour_pillar e

/-- Contribution of one pillar to one element in
`get_element_strength_with_season`: as `pillarRawContrib`, but every
contribution is multiplied by the seasonal weight of the receiving element. -/
def pillarSeasonContrib (w : Element → ℚ) (p : SajuPillar) (e : Element) : ℚ :=
  (if fiveElements p.heavenly_stem = e then 1 * w e else 0)
  + ((hiddenStems p.earthly_branch).map
      (fun x => if fiveElements x.1 = e then ((x.2 : ℚ) / 100) * w e else 0)).sum

/-- `get_element_strength_with_season`: month-branch seasonal weighting,
rounded to 1 decimal per element. -/
def getElementStrengthWithSeason (c : SajuChart) (e : Element) : ℚ :=
  let w := seasonalWeights c.month_pillar.earthly_branch
  round1 (pillarSeasonContrib w c.year_pillar e + pillarSeasonContrib w c.month_pillar e
          + pillarSeasonContrib w c.day_pillar e + pillarSeasonContrib w c.hour_pillar e)

/-- `helping_elements` of `analyze_day_master_strength`: the resource element
that generates the day master's element. -/
def helpingElements (e : Element) : List Element :=
  match e with
  | .wood => [.water]
  | .fire => [.wood]
  | .earth => [.fire]
  | .metal => [.earth]
  | .water => [.metal]

/-- `consuming_elements` of `analyze_day_master_strength`: the three elements
downstream of the day master (output, wealth, authority). -/
def consumingElements (e : Element) : List Element :=
  match e with
  | .wood => [.fire, .earth, .metal]
  | .fire => [.earth, .metal, .water]
  | .earth => [.metal, .water, .wood]
  | .metal => [.water, .wood, .fire]
  | .water => [.wood, .fire, .earth]

/-- Python `min(keys, key=score)` over a nonempty key list: the first key
attaining the minimal score. -/
def minByScore (f : Element → ℚ) (x : Element) (xs : List Element) : Element :=
  xs.foldl (fun best e => if f e < f best then e else best) x

/-- Python `max(keys, key=score)` over a nonempty key list: the first key
attaining the maximal score. -/
def maxByScore (f : Element → ℚ) (x : Element) (xs : List Element) : Element :=
  xs.foldl (fun best e => if f e > f best then e else best) x

/-- The result dict of `analyze_day_master_strength` (the presentation-only
`analysis` text field is omitted). -/
structure StrengthAnalysis where
  day_master : Stem
  day_master_element : Element
  strength_type : String
  strength_level : String
  helping_power : ℚ
  consuming_power : ℚ
  power_ratio : ℚ
  yongshin_elements : List Element
  gishin_elements : List Element
  primary_yongshin : Option Element
deriving DecidableEq, Inhabited

/-- `analyze_day_master_strength`: day-master strength label (신강/신약/중화)
from the season-weighted scores, favorable (용신) and unfavorable (기신)
element lists, and the primary favorable element (min-scored when 신강,
max-scored when 신약). -/
def analyzeDayMasterStrength (c : SajuChart) : StrengthAnalysis :=
  let dm := c.getDayMaster
  let dme := fiveElements dm
  let el := getElementStrengthWithSeason c
  let helpingEls := helpingElements dme
  let consumingEls := consumingElements dme
  let samePower := el dme - 1
  let helping := (helpingEls.map el).sum + samePower
  let consuming := (consumingEls.map el).sum
  let st : String :=
    if helping > consuming * 1.2 then "신강"
    else if helping < consuming * 0.8 then "신약"
    else "중화"
  let yong := if st = "신강" then consumingEls else if st = "신약" then helpingEls else []
  let gish := if st = "신강" then helpingEls else if st = "신약" then consumingEls else []
  let primary : Option Element :=
    match yong with
    | [] => none
    | x :: xs => some (if st = "신강" then minByScore el x xs else maxByScore el x xs)
  { day_master := dm
    day_master_element := dme
    strength_type := st
    strength_level := if st = "신강" then "강" else if st = "신약" then "약" else "평"
    helping_power := round1 helping
    consuming_power := round1 consuming
    power_ratio := if consuming > 0 then round2 (helping / consuming) else round2 999
    yongshin_elements := yong
    gishin_elements := gish
    primary_yongshin := primary }

/-- The great-fortune direction computed inside
`calculate_great_fortune_improved` (lines 752-763): 1 (순행/forward) when the
year stem's parity matches the sex as yang-male or yin-female, else -1
(역행/backward). -/
def fortuneDirection (c : SajuChart) : ℤ :=
  let yearStemIdx := c.year_pillar.heavenly_stem
  let isYangYear := yearStemIdx.val % 2 = 0
  if (isYangYear ∧ c.birth_info.is_male = true) ∨ (¬isYangYear ∧ c.birth_info.is_male = false)
  then 1 else -1

/-- The integer core of `_calculate_precise_fortune_start_age`: finds the
first term of `terms_order` whose (formula-approximated, for every year)
instant is on or before the corrected birth instant and returns the signed
`days_to_next_term` — the day count to the next term in list order (forward)
or from the found term (backward); `none` when no term is on or before the
birth (the source's `if not current_term` early return). -/
def fortuneStartDays (c : SajuChart) (direction : ℤ) : Option ℤ :=
  let bd := c.birth_info.birth_datetime
  let year := c.birth_info.year
  let terms := calcSolarTermsDates year
  match termsOrder.findIdx? (fun t =>
      match terms t with
      | some td => decide (td ≤ bd)
      | none => false) with
  | none => none
  | some i =>
    let currentTerm := termsOrder.getD i .sohan
    let nextTerm := termsOrder.getD ((i + 1) % 24) .sohan
    let nextTermDate := (terms nextTerm).getD 0
    some (if direction = 1 then (nextTermDate - bd).fdiv 86400
          else (bd - (terms currentTerm).getD 0).fdiv 86400)

/-- `_calculate_precise_fortune_start_age`: `days_to_next_term / 3`, clamped
to [1, 10] and rounded to 1 decimal; 8.0 when no term is on or before the
birth instant. -/
def fortuneStartAge (c : SajuChart) (direction : ℤ) : ℚ :=
  match fortuneStartDays c direction with
  | none => 8
  | some daysToNext => round1 (max 1 (min 10 ((daysToNext : ℚ) / 3)))

/-- Sum of a rational-valued element map over the five elements. -/
def elemSumQ (f : Element → ℚ) : ℚ :=
  f .wood + f .fire + f .earth + f .metal + f .water

/-- Sum of an integer-valued element map over the five elements. -/
def elemSumZ (f : Element → ℤ) : ℤ :=
  f .wood + f .fire + f .earth + f .metal + f .water

/-- A rational that is an integer multiple of 1/10 (rounding to one decimal
place leaves it unchanged). -/
def IsTenth (q : ℚ) : Prop :=
  ∃ n : ℤ, q = (n : ℚ) / 10

/-- Decidable equality for the calculator's result type. -/
instance : DecidableEq (Except SajuError SajuChart) := fun a b =>
  match a, b with
  | .error e1, .error e2 => decidable_of_iff (e1 = e2) (by simp)
  | .ok v1, .ok v2 => decidable_of_iff (v1 = v2) (by simp)
  | .error _, .ok _ => isFalse (by simp)
  | .ok _, .error _ => isFalse (by simp)

/-- Decidable equality for month-branch results. -/
instance : DecidableEq (Except SajuError (Fin 12)) := fun a b =>
  match a, b with
  | .error e1, .error e2 => decidable_of_iff (e1 = e2) (by simp)
  | .ok v1, .ok v2 => decidable_of_iff (v1 = v2) (by simp)
  | .error _, .ok _ => isFalse (by simp)
  | .ok _, .error _ => isFalse (by simp)

/-- The supporting power named by the spec: the day master's own
season-weighted score minus 1.0 (its own stem) plus the resource element's
score (the source's `helping_power`, lines 1138-1141). -/
def supportingPower (c : SajuChart) : ℚ :=
  (getElementStrengthWithSeason c (fiveElements c.getDayMaster) - 1)
  + ((helpingElements (fiveElements c.getDayMaster)).map (getElementStrengthWithSeason c)).sum

/-- The draining power named by the spec: the summed season-weighted scores of
the three downstream elements (the source's `consuming_power`, line 1142). -/
def drainingPower (c : SajuChart) : ℚ :=
  ((consumingElements (fiveElements c.getDayMaster)).map (getElementStrengthWithSeason c)).sum

/-- The chart of calculate_saju(1995, 9, 8, 0, 10, male, "Asia/Seoul"): the
+32-minute Seoul correction moves the corrected instant back to Sep 7 23:38. -/
def chartA : SajuChart :=
  { year_pillar := ⟨1, 11⟩, month_pillar := ⟨0, 8⟩, day_pillar := ⟨7, 1⟩,
    hour_pillar := ⟨4, 0⟩,
    birth_info := { year := 1995, month := 9, day := 8, hour := 0, minute := 10,
                    is_male := true, timezone := "Asia/Seoul", is_leap_month := false,
                    birth_datetime := 62946113880 } }

/-- The chart of calculate_saju(1995, 9, 8, 12, 0, male, "Asia/Seoul"): the
corrected instant stays on Sep 8. -/
def chartB : SajuChart :=
  { year_pillar := ⟨1, 11⟩, month_pillar := ⟨0, 8⟩, day_pillar := ⟨8, 2⟩,
    hour_pillar := ⟨2, 6⟩,
    birth_info := { year := 1995, month := 9, day := 8, hour := 12, minute := 0,
                    is_male := true, timezone := "Asia/Seoul", is_leap_month := false,
                    birth_datetime := 62946156480 } }

/-- The chart of calculate_saju(1995, 9, 20, 10, 0, male, "UTC", leap=True). -/
def chartD : SajuChart :=
  { year_pillar := ⟨1, 11⟩, month_pillar := ⟨0, 8⟩, day_pillar := ⟨0, 2⟩,
    hour_pillar := ⟨5, 5⟩,
    birth_info := { year := 1995, month := 9, day := 20, hour := 10, minute := 0,
                    is_male := true, timezone := "UTC", is_leap_month := true,
                    birth_datetime := 62947188000 } }

/-- The chart of calculate_saju(1995, 8, 15, 10, 0, male, "UTC"). -/
def chartE : SajuChart :=
  { year_pillar := ⟨1, 11⟩, month_pillar := ⟨0, 8⟩, day_pillar := ⟨4, 2⟩,
    hour_pillar := ⟨3, 5⟩,
    birth_info := { year := 1995, month := 8, day := 15, hour := 10, minute := 0,
                    is_male := true, timezone := "UTC", is_leap_month := false,
                    birth_datetime := 62944077600 } }

/-- The chart of calculate_saju(1995, 9, 8, 23, 40, male, "Asia/Seoul"): the
corrected clock time is 23:08, inside the late rat-hour window. -/
def chartH : SajuChart :=
  { year_pillar := ⟨1, 11⟩, month_pillar := ⟨0, 8⟩, day_pillar := ⟨8, 2⟩,
    hour_pillar := ⟨6, 0⟩,
    birth_info := { year := 1995, month := 9, day := 8, hour := 23, minute := 40,
                    is_male := true, timezone := "Asia/Seoul", is_leap_month := false,
                    birth_datetime := 62946198480 } }

/-- The chart of calculate_saju(1995, 8, 23, 12, 0, female, "UTC"): a
forward-direction chart born just after 처서 in the approximated 1995 table. -/
def chartI : SajuChart :=
  { year_pillar := ⟨1, 11⟩, month_pillar := ⟨0, 8⟩, day_pillar := ⟨2, 10⟩,
    hour_pillar := ⟨0, 6⟩,
    birth_info := { year := 1995, month := 8, day := 23, hour := 12, minute := 0,
                    is_male := false, timezone := "UTC", is_leap_month := false,
                    birth_datetime := 62944776000 } }

/-! ### Helper lemmas -/

theorem ratTrunc_intCast (n : ℤ) : ratTrunc ((n : ℚ)) = n := by
  unfold ratTrunc
  simp [Rat.num_intCast, Rat.den_intCast, Int.tdiv_one]

theorem applyCorr_utc (t : ℤ) : applySolarTimeCorrection t "UTC" = t := by
  simp only [applySolarTimeCorrection]
  simp [solarCorrections]
  exact fun h => absurd (by norm_num) h

theorem applyCorr_seoul (t : ℤ) : applySolarTimeCorrection t "Asia/Seoul" = t - 1920 := by
  have h32 : solarCorrections "Asia/Seoul" * 60 = ((1920 : ℤ) : ℚ) := by
    norm_num [solarCorrections]
  simp only [applySolarTimeCorrection]
  rw [h32, ratTrunc_intCast, if_pos]
  norm_num [solarCorrections]

theorem mkDatetime?_bounds {y m d h mi t : ℤ} (hth : mkDatetime? y m d h mi = some t) :
    1 ≤ y ∧ y ≤ 9999 ∧ 1 ≤ m ∧ m ≤ 12 ∧ 1 ≤ d ∧ d ≤ daysInMonth y m ∧
    0 ≤ h ∧ h ≤ 23 ∧ 0 ≤ mi ∧ mi ≤ 59 := by
  unfold mkDatetime? at hth
  split at hth
  · assumption
  · exact absurd hth (by simp)

theorem mkDatetime?_isSome (y m d h mi : ℤ) (h1 : 1 ≤ y) (h2 : y ≤ 9999) (h3 : 1 ≤ m)
    (h4 : m ≤ 12) (h5 : 1 ≤ d) (h6 : d ≤ daysInMonth y m) (h7 : 0 ≤ h) (h8 : h ≤ 23)
    (h9 : 0 ≤ mi) (h10 : mi ≤ 59) : ∃ t, mkDatetime? y m d h mi = some t := by
  unfold mkDatetime?
  rw [if_pos ⟨h1, h2, h3, h4, h5, h6, h7, h8, h9, h10⟩]
  exact ⟨_, rfl⟩

theorem dtMinute_nonneg (t : ℤ) : 0 ≤ dtMinute t := by
  unfold dtMinute
  exact Int.fdiv_nonneg (Int.emod_nonneg _ (by norm_num)) (by norm_num)

/-- Unfolding `calculate_saju` on a successfully constructed birth datetime. -/
theorem calculateSaju_some (y m d h mi : ℤ) (male : Bool) (tz : String) (leap : Bool)
    (bd0 bd : ℤ) (hmk : mkDatetime? y m d h mi = some bd0)
    (hbd : applySolarTimeCorrection bd0 tz = bd) :
    calculateSaju y m d h mi male tz leap =
      (match calcMonthPillarImproved y m d leap with
       | .error e => .error e
       | .ok monthPillar =>
         .ok { year_pillar := calcYearPillar y
               month_pillar := monthPillar
               day_pillar := calcDayPillar (dateOrdinal bd - gregorianOrdinal 1900 1 1)
               hour_pillar := calcHourPillarImproved
                 (calcDayPillar (dateOrdinal bd - gregorianOrdinal 1900 1 1)).heavenly_stem
                 (dtHour bd) (dtMinute bd)
               birth_info := { year := y, month := m, day := d, hour := h, minute := mi,
                               is_male := male, timezone := tz, is_leap_month := leap,
                               birth_datetime := bd } }) := by
  unfold calculateSaju
  rw [hmk, ← hbd]

/-- Field extraction from a successful `calculate_saju` call. -/
theorem calculateSaju_ok_fields (y m d h mi : ℤ) (male : Bool) (tz : String) (leap : Bool)
    (c : SajuChart) (hc : calculateSaju y m d h mi male tz leap = .ok c) :
    ∃ bd0, mkDatetime? y m d h mi = some bd0 ∧
      c.birth_info.birth_datetime = applySolarTimeCorrection bd0 tz ∧
      c.year_pillar = calcYearPillar y ∧
      calcMonthPillarImproved y m d leap = .ok c.month_pillar ∧
      c.day_pillar = calcDayPillar
        (dateOrdinal (applySolarTimeCorrection bd0 tz) - gregorianOrdinal 1900 1 1) ∧
      c.hour_pillar = calcHourPillarImproved c.day_pillar.heavenly_stem
        (dtHour (applySolarTimeCorrection bd0 tz)) (dtMinute (applySolarTimeCorrection bd0 tz)) ∧
      c.birth_info.year = y := by
  unfold calculateSaju at hc
  cases hmk : mkDatetime? y m d h mi with
  | none => rw [hmk] at hc; exact absurd hc (by simp)
  | some bd0 =>
    rw [hmk] at hc
    cases hmp : calcMonthPillarImproved y m d leap with
    | error e => rw [hmp] at hc; exact absurd hc (by simp)
    | ok mp =>
      rw [hmp] at hc
      simp only at hc
      injection hc with hrec
      subst hrec
      exact ⟨bd0, rfl, rfl, rfl, rfl, rfl, rfl, rfl⟩

/-- Evaluation of `fiveElements` at each concrete stem index. -/
theorem fiveElements_s0 : fiveElements 0 = Element.wood := rfl

theorem fiveElements_s1 : fiveElements 1 = Element.wood := rfl

theorem fiveElements_s2 : fiveElements 2 = Element.fire := rfl

theorem fiveElements_s3 : fiveElements 3 = Element.fire := rfl

theorem fiveElements_s4 : fiveElements 4 = Element.earth := rfl

theorem fiveElements_s5 : fiveElements 5 = Element.earth := rfl

theorem fiveElements_s6 : fiveElements 6 = Element.metal := rfl

theorem fiveElements_s7 : fiveElements 7 = Element.metal := rfl

theorem fiveElements_s8 : fiveElements 8 = Element.water := rfl

theorem fiveElements_s9 : fiveElements 9 = Element.water := rfl

theorem isTenth_add {a b : ℚ} (ha : IsTenth a) (hb : IsTenth b) : IsTenth (a + b) := by
  obtain ⟨x, hx⟩ := ha
  obtain ⟨y, hy⟩ := hb
  exact ⟨x + y, by rw [hx, hy]; push_cast; ring⟩

theorem isTenth_indicator (P : Prop) [Decidable P] : IsTenth (if P then (1 : ℚ) else 0) := by
  split
  · exact ⟨10, by norm_num⟩
  · exact ⟨0, by norm_num⟩

theorem isTenth_hiddenTerm (e : Element) (x : Stem × ℕ) (hx : x.2 % 10 = 0) :
    IsTenth (if fiveElements x.1 = e then (x.2 : ℚ) / 100 else 0) := by
  split
  · obtain ⟨k, hk⟩ := Nat.dvd_of_mod_eq_zero hx
    exact ⟨k, by rw [hk]; push_cast; ring⟩
  · exact ⟨0, by norm_num⟩

theorem isTenth_hiddenList (l : List (Stem × ℕ)) (e : Element) (hl : ∀ x ∈ l, x.2 % 10 = 0) :
    IsTenth ((l.map (fun x => if fiveElements x.1 = e then (x.2 : ℚ) / 100 else 0)).sum) := by
  induction l with
  | nil => exact ⟨0, by norm_num⟩
  | cons a t ih =>
    simp only [List.map_cons, List.sum_cons]
    exact isTenth_add (isTenth_hiddenTerm e a (hl a (by simp)))
      (ih (fun x hx => hl x (by simp [hx])))

theorem hiddenStems_weights_div (b : Branch) : ∀ x ∈ hiddenStems b, x.2 % 10 = 0 := by
  fin_cases b <;> decide

theorem isTenth_pillarRaw (p : SajuPillar) (e : Element) : IsTenth (pillarRawContrib p e) := by
  unfold pillarRawContrib
  exact isTenth_add (isTenth_indicator _)
    (isTenth_hiddenList _ e (hiddenStems_weights_div p.earthly_branch))

theorem isTenth_raw (c : SajuChart) (e : Element) : IsTenth (rawElementScore c e) := by
  unfold rawElementScore
  exact isTenth_add (isTenth_add (isTenth_add (isTenth_pillarRaw _ e) (isTenth_pillarRaw _ e))
    (isTenth_pillarRaw _ e)) (isTenth_pillarRaw _ e)

theorem round1_isTenth {q : ℚ} (h : IsTenth q) : round1 q = q := by
  obtain ⟨n, rfl⟩ := h
  unfold round1
  rw [div_mul_cancel₀ _ (by norm_num : (10 : ℚ) ≠ 0), round_intCast]

theorem elemIndicatorQ_sum (x : Element) :
    (if x = Element.wood then (1 : ℚ) else 0) + (if x = Element.fire then (1 : ℚ) else 0)
    + (if x = Element.earth then (1 : ℚ) else 0) + (if x = Element.metal then (1 : ℚ) else 0)
    + (if x = Element.water then (1 : ℚ) else 0) = 1 := by
  cases x <;> simp

theorem elemIndicatorZ_sum (x : Element) :
    (if x = Element.wood then (1 : ℤ) else 0) + (if x = Element.fire then (1 : ℤ) else 0)
    + (if x = Element.earth then (1 : ℤ) else 0) + (if x = Element.metal then (1 : ℤ) else 0)
    + (if x = Element.water then (1 : ℤ) else 0) = 1 := by
  cases x <;> simp

theorem hiddenSum_one (b : Branch) :
    ((hiddenStems b).map (fun x => if fiveElements x.1 = Element.wood then (x.2 : ℚ) / 100 else 0)).sum
    + ((hiddenStems b).map (fun x => if fiveElements x.1 = Element.fire then (x.2 : ℚ) / 100 else 0)).sum
    + ((hiddenStems b).map (fun x => if fiveElements x.1 = Element.earth then (x.2 : ℚ) / 100 else 0)).sum
    + ((hiddenStems b).map (fun x => if fiveElements x.1 = Element.metal then (x.2 : ℚ) / 100 else 0)).sum
    + ((hiddenStems b).map (fun x => if fiveElements x.1 = Element.water then (x.2 : ℚ) / 100 else 0)).sum
    = 1 := by
  fin_cases b <;>
    simp [hiddenStems, fiveElements_s0, fiveElements_s1, fiveElements_s2, fiveElements_s3,
      fiveElements_s4, fiveElements_s5, fiveElements_s6, fiveElements_s7, fiveElements_s8,
      fiveElements_s9] <;>
    norm_num

theorem pillarRaw_elemSum (p : SajuPillar) :
    pillarRawContrib p .wood + pillarRawContrib p .fire + pillarRawContrib p .earth
    + pillarRawContrib p .metal + pillarRawContrib p .water = 2 := by
  unfold pillarRawContrib
  have h1 := elemIndicatorQ_sum (fiveElements p.heavenly_stem)
  have h2 := hiddenSum_one p.earthly_branch
  linarith

theorem pillarSimple_elemSum (p : SajuPillar) :
    pillarSimpleContrib p .wood + pillarSimpleContrib p .fire + pillarSimpleContrib p .earth
    + pillarSimpleContrib p .metal + pillarSimpleContrib p .water = 2 := by
  unfold pillarSimpleContrib
  have h1 := elemIndicatorZ_sum (fiveElements p.heavenly_stem)
  have h2 := elemIndicatorZ_sum (fiveElements (strongestHidden p.earthly_branch).1)
  omega

theorem daysInMonth_ge (y m : ℤ) : 28 ≤ daysInMonth y m := by
  unfold daysInMonth
  split_ifs <;> norm_num

theorem calcSTD_isSome (y : ℤ) (h1 : 1 ≤ y) (h2 : y ≤ 9999) (t : Term) :
    ∃ v, calcSolarTermsDates y t = some v := by
  have hbase : ∀ (m d h mi : ℤ), 1 ≤ m → m ≤ 12 → 1 ≤ d → d ≤ 28 → 0 ≤ h → h ≤ 23 →
      0 ≤ mi → mi ≤ 59 → ∃ t0, mkDatetime? y m d h mi = some t0 :=
    fun m d h mi a b c1 d1 e f g1 g2 =>
      mkDatetime?_isSome y m d h mi h1 h2 a b c1 (le_trans d1 (daysInMonth_ge y m)) e f g1 g2
  cases t <;>
  · simp only [calcSolarTermsDates, baseTerms]
    rcases hx : mkDatetime? y _ _ _ _ with _ | w
    · exact hbase _ _ _ _ (by norm_num) (by norm_num) (by norm_num) (by norm_num)
        (by norm_num) (by norm_num) (by norm_num) (by norm_num)
    · exact ⟨w, rfl⟩

theorem solarTermDate_isSome (y : ℤ) (h1 : 1 ≤ y) (h2 : y ≤ 9999) (t : Term)
    (ht1 : t ≠ Term.sohan) (ht2 : t ≠ Term.daehan) :
    ∃ v, solarTermDate y t = some v := by
  unfold solarTermDate
  by_cases hy95 : y = 1995
  · subst hy95
    rw [if_pos rfl]
    cases t
    · exact absurd rfl ht1
    · exact absurd rfl ht2
    all_goals exact ⟨_, rfl⟩
  · rw [if_neg hy95]
    by_cases hy24 : y = 2024
    · subst hy24
      rw [if_pos rfl]
      cases t
      · exact absurd rfl ht1
      · exact absurd rfl ht2
      all_goals exact ⟨_, rfl⟩
    · rw [if_neg hy24]
      exact calcSTD_isSome y h1 h2 t

theorem okIte2 {P : Prop} [Decidable P] (a b : Fin 12) :
    ∃ r, (if P then (Except.ok a : Except SajuError (Fin 12)) else .ok b) = .ok r := by
  split <;> exact ⟨_, rfl⟩

theorem okIte3 {P Q : Prop} [Decidable P] [Decidable Q] (a b c : Fin 12) :
    ∃ r, (if P then (Except.ok a : Except SajuError (Fin 12))
          else if Q then .ok b else .ok c) = .ok r := by
  split
  · exact ⟨_, rfl⟩
  · split <;> exact ⟨_, rfl⟩

theorem monthBranchCore_isOk (y m d : ℤ) (h1 : 1 ≤ y) (h2 : y ≤ 9998) (h3 : 1 ≤ m)
    (h4 : m ≤ 12) (h5 : 1 ≤ d) (h6 : d ≤ daysInMonth y m) :
    ∃ b, monthBranchCore y m d = .ok b := by
  obtain ⟨cur, hcur⟩ := mkDatetime?_isSome y m d 0 0 h1 (by omega) h3 h4 h5 h6
    (by norm_num) (by norm_num) (by norm_num) (by norm_num)
  obtain ⟨v1, hv1⟩ := solarTermDate_isSome y h1 (by omega) Term.baekro (by decide) (by decide)
  obtain ⟨v2, hv2⟩ := solarTermDate_isSome y h1 (by omega) Term.hanro (by decide) (by decide)
  obtain ⟨x6, hx6⟩ := mkDatetime?_isSome (y + 1) 1 6 0 0 (by omega) (by omega) (by norm_num)
    (by norm_num) (by norm_num) (le_trans (by norm_num) (daysInMonth_ge (y + 1) 1))
    (by norm_num) (by norm_num) (by norm_num) (by norm_num)
  unfold monthBranchCore
  simp only [hcur]
  by_cases hm9 : m = 9
  · rw [if_pos hm9]
    simp only [hv1, hv2]
    split_ifs <;> exact ⟨_, rfl⟩
  · rw [if_neg hm9]
    by_cases hc1 : m = 1
    · rw [if_pos hc1]; exact okIte2 _ _
    rw [if_neg hc1]
    by_cases hc2 : m = 2
    · rw [if_pos hc2]; exact okIte3 _ _ _
    rw [if_neg hc2]
    by_cases hc3 : m = 3
    · rw [if_pos hc3]; exact okIte3 _ _ _
    rw [if_neg hc3]
    by_cases hc4 : m = 4
    · rw [if_pos hc4]; exact okIte3 _ _ _
    rw [if_neg hc4]
    by_cases hc5 : m = 5
    · rw [if_pos hc5]; exact okIte3 _ _ _
    rw [if_neg hc5]
    by_cases hc6 : m = 6
    · rw [if_pos hc6]; exact okIte3 _ _ _
    rw [if_neg hc6]
    by_cases hc7 : m = 7
    · rw [if_pos hc7]; exact okIte3 _ _ _
    rw [if_neg hc7]
    by_cases hc8 : m = 8
    · rw [if_pos hc8]; exact okIte3 _ _ _
    rw [if_neg hc8]
    by_cases hc10 : m = 10
    · rw [if_pos hc10]; exact okIte3 _ _ _
    rw [if_neg hc10]
    by_cases hc11 : m = 11
    · rw [if_pos hc11]; exact okIte3 _ _ _
    rw [if_neg hc11]
    simp only [hx6]
    exact okIte2 _ _

theorem calculateSaju_isOk (y m d h mi : ℤ) (male : Bool) (tz : String)
    (hv : (mkDatetime? y m d h mi).isSome = true) (hy : y ≤ 9998) :
    ∃ c, calculateSaju y m d h mi male tz false = .ok c := by
  obtain ⟨bd0, hbd⟩ := Option.isSome_iff_exists.mp hv
  have hb := mkDatetime?_bounds hbd
  obtain ⟨b, hb'⟩ := monthBranchCore_isOk y m d hb.1 hy hb.2.2.1 hb.2.2.2.1
    hb.2.2.2.2.1 hb.2.2.2.2.2.1
  have hmp : calcMonthPillarImproved y m d false =
      .ok ⟨stemIdx ((if (y - 1984).emod 10 = 0 ∨ (y - 1984).emod 10 = 5 then 2
        else if (y - 1984).emod 10 = 1 ∨ (y - 1984).emod 10 = 6 then 4
        else if (y - 1984).emod 10 = 2 ∨ (y - 1984).emod 10 = 7 then 6
        else if (y - 1984).emod 10 = 3 ∨ (y - 1984).emod 10 = 8 then 8
        else 0) + ((b.val : ℤ) - 2).emod 12), b⟩ := by
    unfold calcMonthPillarImproved monthBranch
    rw [if_neg (by simp), hb']
  unfold calculateSaju
  rw [hbd, hmp]
  exact ⟨_, rfl⟩

theorem minByScore_mem (f : Element → ℚ) (x : Element) (xs : List Element) :
    minByScore f x xs ∈ x :: xs := by
  induction xs generalizing x with
  | nil => simp [minByScore]
  | cons a t ih =>
    have step : minByScore f x (a :: t) = minByScore f (if f a < f x then a else x) t := rfl
    rw [step]
    rcases List.mem_cons.mp (ih (if f a < f x then a else x)) with h1 | h1
    · by_cases hfa : f a < f x
      · rw [if_pos hfa] at h1 ⊢
        simp [h1]
      · rw [if_neg hfa] at h1 ⊢
        simp [h1]
    · simp [h1]

theorem minByScore_le (f : Element → ℚ) (x : Element) (xs : List Element) :
    ∀ y ∈ x :: xs, f (minByScore f x xs) ≤ f y := by
  induction xs generalizing x with
  | nil =>
    intro y hy
    rw [List.mem_singleton.mp hy]
    simp [minByScore]
  | cons a t ih =>
    intro y hy
    have step : minByScore f x (a :: t) = minByScore f (if f a < f x then a else x) t := rfl
    rw [step]
    have hzx : f (if f a < f x then a else x) ≤ f x := by
      split
      · exact le_of_lt (by assumption)
      · exact le_refl _
    have hza : f (if f a < f x then a else x) ≤ f a := by
      split
      · exact le_refl _
      · exact le_of_not_lt (by assumption)
    have hhead := ih (if f a < f x then a else x) (if f a < f x then a else x) (by simp)
    rcases List.mem_cons.mp hy with rfl | hy'
    · exact le_trans hhead hzx
    · rcases List.mem_cons.mp hy' with rfl | hyt
      · exact le_trans hhead hza
      · exact ih (if f a < f x then a else x) y (List.mem_cons_of_mem _ hyt)

theorem maxByScore_mem (f : Element → ℚ) (x : Element) (xs : List Element) :
    maxByScore f x xs ∈ x :: xs := by
  induction xs generalizing x with
  | nil => simp [maxByScore]
  | cons a t ih =>
    have step : maxByScore f x (a :: t) = maxByScore f (if f a > f x then a else x) t := rfl
    rw [step]
    rcases List.mem_cons.mp (ih (if f a > f x then a else x)) with h1 | h1
    · by_cases hfa : f a > f x
      · rw [if_pos hfa] at h1 ⊢
        simp [h1]
      · rw [if_neg hfa] at h1 ⊢
        simp [h1]
    · simp [h1]

theorem maxByScore_ge (f : Element → ℚ) (x : Element) (xs : List Element) :
    ∀ y ∈ x :: xs, f y ≤ f (maxByScore f x xs) := by
  induction xs generalizing x with
  | nil =>
    intro y hy
    rw [List.mem_singleton.mp hy]
    simp [maxByScore]
  | cons a t ih =>
    intro y hy
    have step : maxByScore f x (a :: t) = maxByScore f (if f a > f x then a else x) t := rfl
    rw [step]
    have hzx : f x ≤ f (if f a > f x then a else x) := by
      split
      · exact le_of_lt (by assumption)
      · exact le_refl _
    have hza : f a ≤ f (if f a > f x then a else x) := by
      split
      · exact le_refl _
      · exact le_of_not_lt (by assumption)
    have hhead := ih (if f a > f x then a else x) (if f a > f x then a else x) (by simp)
    rcases List.mem_cons.mp hy with rfl | hy'
    · exact le_trans hzx hhead
    · rcases List.mem_cons.mp hy' with rfl | hyt
      · exact le_trans hza hhead
      · exact ih (if f a > f x then a else x) y (List.mem_cons_of_mem _ hyt)

theorem evalA : calculateSaju 1995 9 8 0 10 true "Asia/Seoul" false = .ok chartA := by
  rw [calculateSaju_some 1995 9 8 0 10 true "Asia/Seoul" false 62946115800 62946113880
    (by decide) (by rw [applyCorr_seoul]; decide)]
  rfl

theorem evalB : calculateSaju 1995 9 8 12 0 true "Asia/Seoul" false = .ok chartB := by
  rw [calculateSaju_some 1995 9 8 12 0 true "Asia/Seoul" false 62946158400 62946156480
    (by decide) (by rw [applyCorr_seoul]; decide)]
  rfl

theorem evalD : calculateSaju 1995 9 20 10 0 true "UTC" true = .ok chartD := by
  rw [calculateSaju_some 1995 9 20 10 0 true "UTC" true 62947188000 62947188000
    (by decide) (applyCorr_utc _)]
  rfl

theorem evalE : calculateSaju 1995 8 15 10 0 true "UTC" false = .ok chartE := by
  rw [calculateSaju_some 1995 8 15 10 0 true "UTC" false 62944077600 62944077600
    (by decide) (applyCorr_utc _)]
  rfl

theorem evalH : calculateSaju 1995 9 8 23 40 true "Asia/Seoul" false = .ok chartH := by
  rw [calculateSaju_some 1995 9 8 23 40 true "Asia/Seoul" false 62946200400 62946198480
    (by decide) (by rw [applyCorr_seoul]; decide)]
  rfl

theorem evalI : calculateSaju 1995 8 23 12 0 false "UTC" false = .ok chartI := by
  rw [calculateSaju_some 1995 8 23 12 0 false "UTC" false 62944776000 62944776000
    (by decide) (applyCorr_utc _)]
  rfl

/-! ### Claim theorems -/

/-- C1 counterexample: two births with the same civil date 1995-09-08 in
Asia/Seoul, at 00:10 and at 12:00, receive different day pillars (신축 vs
임인), because the solar-time correction moves the first corrected instant to
Sep 7; the claim that the day pillar is computed from the uncorrected civil
date is therefore false. -/
theorem c1_counterexample :
    (calculateSaju 1995 9 8 0 10 true "Asia/Seoul" false).map (fun c => c.day_pillar)
      = .ok ⟨7, 1⟩
    ∧ (calculateSaju 1995 9 8 12 0 true "Asia/Seoul" false).map (fun c => c.day_pillar)
      = .ok ⟨8, 2⟩
    ∧ (⟨7, 1⟩ : SajuPillar) ≠ ⟨8, 2⟩ := by
  refine ⟨?_, ?_, by decide⟩
  · rw [evalA]; rfl
  · rw [evalB]; rfl

/-- C1 (amended): the solar-time correction leaves the year and month pillars
untouched (they are computed from the uncorrected civil year/month/day), but
the day pillar is computed from the calendar date of the **corrected** instant:
charts for the same civil date agree on year and month pillars, and agree on
the day pillar whenever their corrected instants fall on the same calendar
day. -/
theorem c1_correction_scope (y m d : ℤ) (leap : Bool) (male : Bool)
    (h1 mi1 h2 mi2 : ℤ) (tz1 tz2 : String) (c1 c2 : SajuChart)
    (hA : calculateSaju y m d h1 mi1 male tz1 leap = .ok c1)
    (hB : calculateSaju y m d h2 mi2 male tz2 leap = .ok c2) :
    c1.year_pillar = c2.year_pillar ∧ c1.month_pillar = c2.month_pillar ∧
    (dateOrdinal c1.birth_info.birth_datetime = dateOrdinal c2.birth_info.birth_datetime →
      c1.day_pillar = c2.day_pillar) := by
  obtain ⟨bd1, hmk1, hbd1, hyp1, hmp1, hdp1, hhp1, hyr1⟩ :=
    calculateSaju_ok_fields _ _ _ _ _ _ _ _ _ hA
  obtain ⟨bd2, hmk2, hbd2, hyp2, hmp2, hdp2, hhp2, hyr2⟩ :=
    calculateSaju_ok_fields _ _ _ _ _ _ _ _ _ hB
  refine ⟨?_, ?_, ?_⟩
  · rw [hyp1, hyp2]
  · exact Except.ok.inj (hmp1.symm.trans hmp2)
  · intro hdate
    rw [hdp1, hdp2, ← hbd1, ← hbd2, hdate]

/-- C1 witness: the amended statement instantiated at the two Seoul births of
the counterexample. -/
theorem c1_correction_scope_witness :
    calculateSaju 1995 9 8 0 10 true "Asia/Seoul" false = .ok chartA ∧
    calculateSaju 1995 9 8 12 0 true "Asia/Seoul" false = .ok chartB ∧
    (chartA.year_pillar = chartB.year_pillar ∧ chartA.month_pillar = chartB.month_pillar ∧
      (dateOrdinal chartA.birth_info.birth_datetime = dateOrdinal chartB.birth_info.birth_datetime →
        chartA.day_pillar = chartB.day_pillar)) :=
  ⟨evalA, evalB,
    c1_correction_scope 1995 9 8 false true 0 10 12 0 "Asia/Seoul" "Asia/Seoul"
      chartA chartB evalA evalB⟩

/-- C2 counterexample: a birth exactly at the 1995 백로 timestamp
(1995-09-08 06:00) receives month branch 8 (신), not 9 (유) as the claim
requires: the source compares midnight of the birth date with the term
instant, so the whole of Sep 8 stays on the 신 side. -/
theorem c2_counterexample :
    (calculateSaju 1995 9 8 6 0 true "UTC" false).map (fun c => c.month_pillar.earthly_branch)
      = .ok (8 : Branch)
    ∧ (8 : Branch) ≠ (9 : Branch) := by
  refine ⟨?_, by decide⟩
  rw [calculateSaju_some 1995 9 8 6 0 true "UTC" false 62946136800 62946136800
    (by decide) (applyCorr_utc _)]
  rfl

/-- C2 (amended): the 1995 month-branch boundary near 백로 is evaluated at
date granularity — the birth date at midnight is compared with the
1995-09-08 06:00 term instant — so for a September 1995 birth the month branch
is 8 (신) for any day up to and including Sep 8 (at any clock time, even after
06:00) and 9 (유) from Sep 9 on; the flip happens at midnight of Sep 9, not at
the 06:00 timestamp. -/
theorem c2_date_granularity (d : ℤ) (hd1 : 1 ≤ d) (hd2 : d ≤ 30) :
    monthBranch 1995 9 d false = .ok (if d ≤ 8 then (8 : Fin 12) else 9) := by
  interval_cases d <;> decide

/-- C2 witness: the amended statement at the boundary date Sep 8. -/
theorem c2_date_granularity_witness :
    (1 : ℤ) ≤ 8 ∧ (8 : ℤ) ≤ 30 ∧
    monthBranch 1995 9 8 false = .ok (if (8 : ℤ) ≤ 8 then (8 : Fin 12) else 9) :=
  ⟨by norm_num, by norm_num, c2_date_granularity 8 (by norm_num) (by norm_num)⟩

/-- C3: for every chart, the hidden-stem-weighted element scores (rounded per
element to 1 decimal) sum to exactly 8, the simplified integer scores sum to
exactly 8, and every branch's hidden-stem weight list sums to exactly 100. -/
theorem c3_element_score_sums (c : SajuChart) :
    elemSumQ (getElementStrength c) = 8 ∧ elemSumZ (getElementStrengthSimple c) = 8 ∧
    ∀ b : Branch, ((hiddenStems b).map Prod.snd).sum = 100 := by
  refine ⟨?_, ?_, by decide⟩
  · have h1 : ∀ e, getElementStrength c e = rawElementScore c e := fun e =>
      round1_isTenth (isTenth_raw c e)
    unfold elemSumQ
    rw [h1, h1, h1, h1, h1]
    unfold rawElementScore
    have hy := pillarRaw_elemSum c.year_pillar
    have hm := pillarRaw_elemSum c.month_pillar
    have hd := pillarRaw_elemSum c.day_pillar
    have hh := pillarRaw_elemSum c.hour_pillar
    linarith
  · unfold elemSumZ getElementStrengthSimple
    have hy := pillarSimple_elemSum c.year_pillar
    have hm := pillarSimple_elemSum c.month_pillar
    have hd := pillarSimple_elemSum c.day_pillar
    have hh := pillarSimple_elemSum c.hour_pillar
    omega

/-- C4: a chart computed with `is_leap_month=True` receives the same month
branch as the chart of the previous calendar month at its mid-month day 15
(month 12 of the previous year when the month is 1). -/
theorem c4_leap_month_branch (y m d h mi : ℤ) (male : Bool) (tz : String)
    (c c2 : SajuChart)
    (hA : calculateSaju y m d h mi male tz true = .ok c)
    (hB : calculateSaju (if m = 1 then y - 1 else y) (if m = 1 then 12 else m - 1) 15
            h mi male tz false = .ok c2) :
    c.month_pillar.earthly_branch = c2.month_pillar.earthly_branch := by
  obtain ⟨bd1, hmk1, _, _, hmp1, _, _, _⟩ := calculateSaju_ok_fields _ _ _ _ _ _ _ _ _ hA
  obtain ⟨bd2, hmk2, _, _, hmp2, _, _, _⟩ := calculateSaju_ok_fields _ _ _ _ _ _ _ _ _ hB
  have hm1 : 1 ≤ m := (mkDatetime?_bounds hmk1).2.2.1
  have hbr : monthBranch y m d true =
      monthBranchCore (if m = 1 then y - 1 else y) (if m = 1 then 12 else m - 1) 15 := by
    unfold monthBranch
    rw [if_pos rfl]
    by_cases hm : m = 1
    · rw [if_neg (by omega), if_pos hm, if_pos hm]
    · rw [if_pos (by omega), if_neg hm, if_neg hm]
  have hbr2 : monthBranch (if m = 1 then y - 1 else y) (if m = 1 then 12 else m - 1) 15 false =
      monthBranchCore (if m = 1 then y - 1 else y) (if m = 1 then 12 else m - 1) 15 := by
    unfold monthBranch
    rw [if_neg (by simp)]
  unfold calcMonthPillarImproved at hmp1 hmp2
  rw [hbr] at hmp1
  rw [hbr2] at hmp2
  cases hcore : monthBranchCore (if m = 1 then y - 1 else y) (if m = 1 then 12 else m - 1) 15 with
  | error e =>
    rw [hcore] at hmp1
    exact absurd hmp1 (by simp)
  | ok mb =>
    rw [hcore] at hmp1 hmp2
    simp only at hmp1 hmp2
    have e1 := Except.ok.inj hmp1
    have e2 := Except.ok.inj hmp2
    rw [← e1, ← e2]

/-- C4 witness: a leap-marked September 1995 birth and the non-leap mid-August
birth receive the same month branch (신). -/
theorem c4_leap_month_branch_witness :
    calculateSaju 1995 9 20 10 0 true "UTC" true = .ok chartD ∧
    calculateSaju 1995 8 15 10 0 true "UTC" false = .ok chartE ∧
    chartD.month_pillar.earthly_branch = chartE.month_pillar.earthly_branch :=
  ⟨evalD, evalE, c4_leap_month_branch 1995 9 20 10 0 true "UTC" chartD chartE evalD evalE⟩

/-- C5: the great-fortune direction is forward (1) exactly when the year stem
is yang (even index) and the person is male, or the year stem is yin (odd
index) and the person is female; it is backward (-1) exactly otherwise. -/
theorem c5_fortune_direction (c : SajuChart) :
    (fortuneDirection c = 1 ↔
      ((c.year_pillar.heavenly_stem.val % 2 = 0 ∧ c.birth_info.is_male = true) ∨
       (c.year_pillar.heavenly_stem.val % 2 = 1 ∧ c.birth_info.is_male = false)))
    ∧ (fortuneDirection c = -1 ↔
      ¬ ((c.year_pillar.heavenly_stem.val % 2 = 0 ∧ c.birth_info.is_male = true) ∨
         (c.year_pillar.heavenly_stem.val % 2 = 1 ∧ c.birth_info.is_male = false))) := by
  unfold fortuneDirection
  rcases Nat.mod_two_eq_zero_or_one c.year_pillar.heavenly_stem.val with hp | hp <;>
    cases hb : c.birth_info.is_male <;>
    simp [hp, hb]

/-- C7: a malformed or out-of-range date/time argument (one Python `datetime`
rejects) makes `calculate_saju` fail with the invalid-date error before any
pillar computation, and no chart is returned. -/
theorem c7_invalid_input (y m d h mi : ℤ) (male : Bool) (tz : String) (leap : Bool)
    (hinv : mkDatetime? y m d h mi = none) :
    calculateSaju y m d h mi male tz leap = .error .invalidDate := by
  unfold calculateSaju
  rw [hinv]

/-- C7 witness: day 31 in 30-day April 1995 is rejected. -/
theorem c7_invalid_input_witness :
    mkDatetime? 1995 4 31 10 0 = none ∧
    calculateSaju 1995 4 31 10 0 true "Asia/Seoul" false = .error .invalidDate :=
  ⟨by decide, c7_invalid_input 1995 4 31 10 0 true "Asia/Seoul" false (by decide)⟩

/-- C9 counterexample: for birth year 1996 — outside the exact 1995/2024
solar-term tables — `calculate_saju` does not fail with any unsupported-year
error; it silently returns an ordinary chart whose fields are just the four
pillars and the echoed inputs, with no indication that the
formula-approximated table was used. -/
theorem c9_counterexample :
    calculateSaju 1996 3 15 10 0 true "UTC" false =
      .ok { year_pillar := ⟨2, 0⟩, month_pillar := ⟨7, 3⟩, day_pillar := ⟨7, 11⟩,
            hour_pillar := ⟨9, 5⟩,
            birth_info := { year := 1996, month := 3, day := 15, hour := 10, minute := 0,
                            is_male := true, timezone := "UTC", is_leap_month := false,
                            birth_datetime := 62962480800 } } := by
  rw [calculateSaju_some 1996 3 15 10 0 true "UTC" false 62962480800 62962480800
    (by decide) (applyCorr_utc _)]
  rfl

/-- C9 (amended): for every valid (non-leap) input with year at most 9998,
`calculate_saju` succeeds — it never raises an unsupported-year error — and
for any year other than 1995 and 2024 the solar-term instants it resolves
against are exactly the formula-approximated ones; nothing in the returned
chart distinguishes exact from approximated tables. -/
theorem c9_no_unsupported_year (y m d h mi : ℤ) (male : Bool) (tz : String)
    (hv : (mkDatetime? y m d h mi).isSome = true) (hy : y ≤ 9998) :
    (∃ c, calculateSaju y m d h mi male tz false = .ok c)
    ∧ (y ≠ 1995 → y ≠ 2024 → ∀ t, solarTermDate y t = calcSolarTermsDates y t) := by
  refine ⟨calculateSaju_isOk y m d h mi male tz hv hy, fun h95 h24 t => ?_⟩
  unfold solarTermDate
  rw [if_neg h95, if_neg h24]

/-- C9 witness: the amended statement at the unsupported year 1996. -/
theorem c9_no_unsupported_year_witness :
    (mkDatetime? 1996 3 15 10 0).isSome = true ∧ (1996 : ℤ) ≤ 9998 ∧
    ((∃ c, calculateSaju 1996 3 15 10 0 true "UTC" false = .ok c)
      ∧ ((1996 : ℤ) ≠ 1995 → (1996 : ℤ) ≠ 2024 →
          ∀ t, solarTermDate 1996 t = calcSolarTermsDates 1996 t)) :=
  ⟨by decide, by norm_num,
    c9_no_unsupported_year 1996 3 15 10 0 true "UTC" (by decide) (by norm_num)⟩

/-- C10: when the solar-time-corrected clock time is in the late rat-hour
window (hour 23), the hour branch is 자 (index 0) and the day pillar is still
the one of the corrected instant's own calendar date — it is never advanced to
the next day. -/
theorem c10_late_rat_hour (y m d h mi : ℤ) (male : Bool) (tz : String) (leap : Bool)
    (c : SajuChart) (hc : calculateSaju y m d h mi male tz leap = .ok c)
    (hh : dtHour c.birth_info.birth_datetime = 23) :
    c.hour_pillar.earthly_branch = (0 : Branch) ∧
    c.day_pillar = calcDayPillar
      (dateOrdinal c.birth_info.birth_datetime - gregorianOrdinal 1900 1 1) := by
  obtain ⟨bd0, hmk, hbd, _, _, hdp, hhp, _⟩ := calculateSaju_ok_fields _ _ _ _ _ _ _ _ _ hc
  constructor
  · rw [hhp, ← hbd, hh]
    have hmin := dtMinute_nonneg c.birth_info.birth_datetime
    simp only [calcHourPillarImproved]
    rw [if_pos (Or.inl (by omega))]
    decide
  · rw [hdp, ← hbd]

/-- C10 witness: the 1995-09-08 23:40 Seoul birth (corrected clock time 23:08)
gets hour branch 자 and keeps the Sep 8 day pillar. -/
theorem c10_late_rat_hour_witness :
    calculateSaju 1995 9 8 23 40 true "Asia/Seoul" false = .ok chartH ∧
    dtHour chartH.birth_info.birth_datetime = 23 ∧
    (chartH.hour_pillar.earthly_branch = (0 : Branch) ∧
      chartH.day_pillar = calcDayPillar
        (dateOrdinal chartH.birth_info.birth_datetime - gregorianOrdinal 1900 1 1)) :=
  ⟨evalH, by decide,
    c10_late_rat_hour 1995 9 8 23 40 true "Asia/Seoul" false chartH evalH (by decide)⟩

/-- C6: the fortune-start-age computation contradicts its own documented
days-to-the-adjacent-term/3 formula.  For the forward-direction chart of
1995-08-23 12:00 (female, no correction), the next solar term after the birth
in the approximated table is 백로 (Sep 8 00:00), 15 whole days away, so the
documented formula gives 15/3 = 5.0; the code instead returns 1.0, because its
term search breaks at the first table entry on or before the birth (소한,
Jan 6), making the forward distance negative and clamping it to the minimum. -/
theorem c6_start_age_eval :
    (calculateSaju 1995 8 23 12 0 false "UTC" false).map
        (fun c => (fortuneDirection c, fortuneStartAge c (fortuneDirection c))) = .ok (1, 1)
    ∧ ((((calcSolarTermsDates 1995 Term.baekro).getD 0 -
          ((mkDatetime? 1995 8 23 12 0).getD 0)).fdiv 86400 : ℤ) : ℚ) / 3 = 5 := by
  constructor
  · rw [evalI]
    have hdir : fortuneDirection chartI = 1 := rfl
    have hdays : fortuneStartDays chartI 1 = some (-216) := by decide
    show Except.ok (fortuneDirection chartI, fortuneStartAge chartI (fortuneDirection chartI))
      = .ok (1, 1)
    rw [hdir]
    unfold fortuneStartAge
    rw [hdays]
    norm_num [round1, round_eq]
  · have hd : ((calcSolarTermsDates 1995 Term.baekro).getD 0 -
        ((mkDatetime? 1995 8 23 12 0).getD 0)).fdiv 86400 = 15 := by decide
    rw [hd]
    norm_num

theorem iteQ_nonneg {c : Prop} [Decidable c] {a b : ℚ} (ha : 0 ≤ a) (hb : 0 ≤ b) :
    0 ≤ if c then a else b := by
  split <;> assumption

set_option maxHeartbeats 4000000 in
theorem seasonalWeights_nonneg (b : Branch) (e : Element) : 0 ≤ seasonalWeights b e := by
  fin_cases b <;> cases e <;> norm_num [seasonalWeights]

theorem round1_nonneg {q : ℚ} (h : 0 ≤ q) : 0 ≤ round1 q := by
  unfold round1
  have hr : (0 : ℤ) ≤ round (q * 10) := by
    rw [round_eq]
    exact Int.le_floor.mpr (by push_cast; linarith)
  exact div_nonneg (by exact_mod_cast hr) (by norm_num)

theorem pillarSeason_nonneg (w : Element → ℚ) (hw : ∀ e, 0 ≤ w e) (p : SajuPillar)
    (e : Element) : 0 ≤ pillarSeasonContrib w p e := by
  unfold pillarSeasonContrib
  have h1 : (0 : ℚ) ≤ if fiveElements p.heavenly_stem = e then 1 * w e else 0 := by
    split
    · simpa using hw e
    · exact le_refl 0
  have h2 : (0 : ℚ) ≤ ((hiddenStems p.earthly_branch).map
      (fun x => if fiveElements x.1 = e then ((x.2 : ℚ) / 100) * w e else 0)).sum := by
    apply List.sum_nonneg
    intro q hq
    obtain ⟨a, _, rfl⟩ := List.mem_map.mp hq
    split
    · exact mul_nonneg (by positivity) (hw e)
    · exact le_refl 0
  linarith

theorem seasonScore_nonneg (c : SajuChart) (e : Element) :
    0 ≤ getElementStrengthWithSeason c e := by
  have hw : ∀ e', 0 ≤ seasonalWeights c.month_pillar.earthly_branch e' := fun e' =>
    seasonalWeights_nonneg _ _
  have h1 := pillarSeason_nonneg _ hw c.year_pillar e
  have h2 := pillarSeason_nonneg _ hw c.month_pillar e
  have h3 := pillarSeason_nonneg _ hw c.day_pillar e
  have h4 := pillarSeason_nonneg _ hw c.hour_pillar e
  unfold getElementStrengthWithSeason
  exact round1_nonneg (by linarith)

theorem drainingPower_nonneg (c : SajuChart) : 0 ≤ drainingPower c := by
  apply List.sum_nonneg
  intro q hq
  obtain ⟨a, _, rfl⟩ := List.mem_map.mp hq
  exact seasonScore_nonneg c a

/-- C8: the day-master strength label is 신강 (strong) exactly when
supporting power > draining power × 1.2 and 신약 (weak) exactly when
supporting power < draining power × 0.8, with 중화 (balanced) otherwise,
where supporting power is the day master's own season-weighted score minus 1
plus the resource element's score and draining power is the three downstream
elements' summed scores; the favorable set is the draining-side elements when
strong, the supporting-side elements when weak, and empty when balanced; and
the primary favorable element exists exactly when not balanced, lies in the
favorable set, and attains the minimal score there when strong and the
maximal score there when weak. -/
theorem c8_day_master_strength (c : SajuChart) :
    ((analyzeDayMasterStrength c).strength_type = "신강" ↔
      supportingPower c > drainingPower c * 1.2)
    ∧ ((analyzeDayMasterStrength c).strength_type = "신약" ↔
      supportingPower c < drainingPower c * 0.8)
    ∧ ((analyzeDayMasterStrength c).strength_type = "중화" ↔
      (¬ supportingPower c > drainingPower c * 1.2 ∧
       ¬ supportingPower c < drainingPower c * 0.8))
    ∧ ((analyzeDayMasterStrength c).strength_type = "신강" →
      (analyzeDayMasterStrength c).yongshin_elements =
        consumingElements (fiveElements c.getDayMaster))
    ∧ ((analyzeDayMasterStrength c).strength_type = "신약" →
      (analyzeDayMasterStrength c).yongshin_elements =
        helpingElements (fiveElements c.getDayMaster))
    ∧ ((analyzeDayMasterStrength c).strength_type = "중화" →
      (analyzeDayMasterStrength c).yongshin_elements = [])
    ∧ (∀ p, (analyzeDayMasterStrength c).primary_yongshin = some p →
      p ∈ (analyzeDayMasterStrength c).yongshin_elements
      ∧ ((analyzeDayMasterStrength c).strength_type = "신강" →
          ∀ e ∈ (analyzeDayMasterStrength c).yongshin_elements,
            getElementStrengthWithSeason c p ≤ getElementStrengthWithSeason c e)
      ∧ ((analyzeDayMasterStrength c).strength_type = "신약" →
          ∀ e ∈ (analyzeDayMasterStrength c).yongshin_elements,
            getElementStrengthWithSeason c e ≤ getElementStrengthWithSeason c p))
    ∧ ((analyzeDayMasterStrength c).primary_yongshin = none ↔
      (analyzeDayMasterStrength c).strength_type = "중화") := by
  have hSD : ((helpingElements (fiveElements c.getDayMaster)).map
        (getElementStrengthWithSeason c)).sum
      + (getElementStrengthWithSeason c (fiveElements c.getDayMaster) - 1)
      = supportingPower c := by
    unfold supportingPower
    ring
  have hDD : ((consumingElements (fiveElements c.getDayMaster)).map
      (getElementStrengthWithSeason c)).sum = drainingPower c := rfl
  have hDnn : 0 ≤ drainingPower c := drainingPower_nonneg c
  obtain ⟨xc, xsc, hxc⟩ : ∃ x xs, consumingElements (fiveElements c.getDayMaster) = x :: xs := by
    cases hfe : fiveElements c.getDayMaster <;> exact ⟨_, _, rfl⟩
  obtain ⟨xh, xsh, hxh⟩ : ∃ x xs, helpingElements (fiveElements c.getDayMaster) = x :: xs := by
    cases hfe : fiveElements c.getDayMaster <;> exact ⟨_, _, rfl⟩
  by_cases h1 : supportingPower c > drainingPower c * 1.2
  · have h1' : ((helpingElements (fiveElements c.getDayMaster)).map
          (getElementStrengthWithSeason c)).sum
        + (getElementStrengthWithSeason c (fiveElements c.getDayMaster) - 1)
        > ((consumingElements (fiveElements c.getDayMaster)).map
          (getElementStrengthWithSeason c)).sum * 1.2 := by
      rw [hSD, hDD]
      exact h1
    have hst : (analyzeDayMasterStrength c).strength_type = "신강" := by
      simp only [analyzeDayMasterStrength]
      rw [if_pos h1']
    have hyong : (analyzeDayMasterStrength c).yongshin_elements =
        consumingElements (fiveElements c.getDayMaster) := by
      simp only [analyzeDayMasterStrength]
      rw [if_pos h1']
      simp
    have hprim : (analyzeDayMasterStrength c).primary_yongshin =
        some (minByScore (getElementStrengthWithSeason c) xc xsc) := by
      simp only [analyzeDayMasterStrength]
      rw [if_pos h1', hxc]
      simp
    refine ⟨?_, ?_, ?_, ?_, ?_, ?_, ?_, ?_⟩
    · rw [hst]
      exact iff_of_true rfl h1
    · rw [hst]
      refine iff_of_false (by decide) ?_
      intro hlt
      have h12 : (1.2 : ℚ) * drainingPower c ≥ 0.8 * drainingPower c := by nlinarith
      nlinarith
    · rw [hst]
      refine iff_of_false (by decide) ?_
      rintro ⟨hna, hnb⟩
      exact hna h1
    · intro _
      exact hyong
    · intro hcontra
      exact absurd (hst.symm.trans hcontra) (by decide)
    · intro hcontra
      exact absurd (hst.symm.trans hcontra) (by decide)
    · intro p hp
      rw [hprim] at hp
      have hpe := Option.some.inj hp
      refine ⟨?_, ?_, ?_⟩
      · rw [hyong, hxc, ← hpe]
        exact minByScore_mem _ _ _
      · intro _ e he
        rw [hyong, hxc] at he
        rw [← hpe]
        exact minByScore_le _ _ _ e he
      · intro hcontra
        exact absurd (hst.symm.trans hcontra) (by decide)
    · rw [hprim, hst]
      simp
  · have h1'' : ¬ (((helpingElements (fiveElements c.getDayMaster)).map
          (getElementStrengthWithSeason c)).sum
        + (getElementStrengthWithSeason c (fiveElements c.getDayMaster) - 1)
        > ((consumingElements (fiveElements c.getDayMaster)).map
          (getElementStrengthWithSeason c)).sum * 1.2) := by
      rw [hSD, hDD]
      exact h1
    by_cases h2 : supportingPower c < drainingPower c * 0.8
    · have h2' : ((helpingElements (fiveElements c.getDayMaster)).map
            (getElementStrengthWithSeason c)).sum
          + (getElementStrengthWithSeason c (fiveElements c.getDayMaster) - 1)
          < ((consumingElements (fiveElements c.getDayMaster)).map
            (getElementStrengthWithSeason c)).sum * 0.8 := by
        rw [hSD, hDD]
        exact h2
      have hst : (analyzeDayMasterStrength c).strength_type = "신약" := by
        simp only [analyzeDayMasterStrength]
        rw [if_neg h1'', if_pos h2']
      have hyong : (analyzeDayMasterStrength c).yongshin_elements =
          helpingElements (fiveElements c.getDayMaster) := by
        simp only [analyzeDayMasterStrength]
        rw [if_neg h1'', if_pos h2']
        simp
      have hprim : (analyzeDayMasterStrength c).primary_yongshin =
          some (maxByScore (getElementStrengthWithSeason c) xh xsh) := by
        simp only [analyzeDayMasterStrength]
        rw [if_neg h1'', if_pos h2', hxh]
        simp
      refine ⟨?_, ?_, ?_, ?_, ?_, ?_, ?_, ?_⟩
      · rw [hst]
        exact iff_of_false (by decide) h1
      · rw [hst]
        exact iff_of_true rfl h2
      · rw [hst]
        refine iff_of_false (by decide) ?_
        rintro ⟨hna, hnb⟩
        exact hnb h2
      · intro hcontra
        exact absurd (hst.symm.trans hcontra) (by decide)
      · intro _
        exact hyong
      · intro hcontra
        exact absurd (hst.symm.trans hcontra) (by decide)
      · intro p hp
        rw [hprim] at hp
        have hpe := Option.some.inj hp
        refine ⟨?_, ?_, ?_⟩
        · rw [hyong, hxh, ← hpe]
          exact maxByScore_mem _ _ _
        · intro hcontra
          exact absurd (hst.symm.trans hcontra) (by decide)
        · intro _ e he
          rw [hyong, hxh] at he
          rw [← hpe]
          exact maxByScore_ge _ _ _ e he
      · rw [hprim, hst]
        simp
    · have h2'' : ¬ (((helpingElements (fiveElements c.getDayMaster)).map
            (getElementStrengthWithSeason c)).sum
          + (getElementStrengthWithSeason c (fiveElements c.getDayMaster) - 1)
          < ((consumingElements (fiveElements c.getDayMaster)).map
            (getElementStrengthWithSeason c)).sum * 0.8) := by
        rw [hSD, hDD]
        exact h2
      have hst : (analyzeDayMasterStrength c).strength_type = "중화" := by
        simp only [analyzeDayMasterStrength]
        rw [if_neg h1'', if_neg h2'']
      have hyong : (analyzeDayMasterStrength c).yongshin_elements = [] := by
        simp only [analyzeDayMasterStrength]
        rw [if_neg h1'', if_neg h2'']
        simp
      have hprim : (analyzeDayMasterStrength c).primary_yongshin = none := by
        simp only [analyzeDayMasterStrength]
        rw [if_neg h1'', if_neg h2'']
        simp
      refine ⟨?_, ?_, ?_, ?_, ?_, ?_, ?_, ?_⟩
      · rw [hst]
        exact iff_of_false (by decide) h1
      · rw [hst]
        exact iff_of_false (by decide) h2
      · rw [hst]
        exact iff_of_true rfl ⟨h1, h2⟩
      · intro hcontra
        exact absurd (hst.symm.trans hcontra) (by decide)
      · intro hcontra
        exact absurd (hst.symm.trans hcontra) (by decide)
      · intro _
        exact hyong
      · intro p hp
        rw [hprim] at hp
        exact absurd hp (by simp)
      · rw [hprim, hst]
        exact iff_of_true rfl rfl
